import Mathlib

/-!
# Verification of the DSQL connectivity test program (src/python/main.py)

A shallow embedding of `src/python/main.py` in Lean 4.  The program reads
four environment variables, validates them, opens one database connection
through a tunnel, runs one introspection query, prints a formatted info
block, and maps every exception to a categorized message on stderr plus
exit code 1.

Modelling conventions:
* The process environment is a record of four `Option String` fields
  (absent variable = `none`).
* Python exceptions are the inductive `Exc`: `ValueError`,
  `psycopg2.OperationalError`, other `psycopg2.Error`, and the catch-all
  for any other exception (e.g. `TypeError`).  The `except` clauses of
  `main` are total over these four, matching the source.
* The external database library (psycopg2) is an external collaborator;
  its observable outcomes at the two call sites (`connect`, and
  `execute`/`fetchone`) are supplied by a `World` value.  Connection-phase
  failures (timeout, refusal, authentication rejection, TLS failure) are
  raised by psycopg2 as `OperationalError`, modelled by the
  `operationalError` outcome.  Closing the connection context is modelled
  as non-failing.
* `print(x)` becomes appending lines to a list; a leading `"\n"` in a
  printed string becomes an extra empty line.
* Python `re.match(r'^[a-zA-Z0-9.-]+$', s)` is truthy iff `s` is a
  non-empty run of class characters, or such a run followed by one final
  newline (Python `$` also matches just before a trailing newline).
-/

set_option maxRecDepth 100000

deriving instance DecidableEq for Except

namespace DsqlMain

/-- The exception kinds distinguished by the `except` clauses of `main`:
`ValueError`, `psycopg2.OperationalError`, other `psycopg2.Error`,
and any other `Exception` (such as the `TypeError` raised by subscripting
`None`).  Each carries the text that `str(e)` would produce. -/
inductive Exc where
  | valueError (msg : String)
  | operationalError (msg : String)
  | databaseError (msg : String)
  | otherError (msg : String)
deriving DecidableEq, Repr

/-- The process environment restricted to the four variables the program
reads.  `none` models an absent variable. -/
structure Env where
  HOSTNAME : Option String
  PGHOSTADDR : Option String
  PGPASSWORD : Option String
  PGSSLMODE : Option String
deriving DecidableEq, Repr

/-- `os.environ.get(var)` for the four variables the program uses. -/
def envGet (env : Env) (var : String) : Option String :=
  if var = "HOSTNAME" then env.HOSTNAME
  else if var = "PGHOSTADDR" then env.PGHOSTADDR
  else if var = "PGPASSWORD" then env.PGPASSWORD
  else if var = "PGSSLMODE" then env.PGSSLMODE
  else none

/-- Python truthiness test `not value` for `value = os.environ.get(var)`:
true iff the variable is absent or set to the empty string. -/
def envMissing (env : Env) (var : String) : Bool :=
  match envGet env var with
  | none => true
  | some v => v == ""

/-- The value of a present, non-empty variable. -/
def envValue (env : Env) (var : String) : String :=
  (envGet env var).getD ""

/-- One iteration of the loop in `get_connection_config`
(src/python/main.py lines 49-53): read a required variable, raising
`ValueError` when it is absent or empty. -/
def readVar (env : Env) (var : String) : Except Exc String :=
  if envMissing env var then
    .error (.valueError ("Required environment variable " ++ var ++ " is not set"))
  else
    .ok (envValue env var)

/-- Membership in the regex character class `[a-zA-Z0-9.-]`
(ASCII letters, digits, dot, hyphen). -/
def is_hostname_char (c : Char) : Bool :=
  c.isAlpha || c.isDigit || c == '.' || c == '-'

/-- Truthiness of `re.match(r'^[a-zA-Z0-9.-]+$', s)` in Python: the match
succeeds iff `s` is a non-empty string of class characters, or such a
string followed by exactly one final newline (in Python, `$` matches at
the end of the string and also just before a newline that ends it). -/
def hostname_regex_match (s : String) : Bool :=
  let cs := s.data
  (!cs.isEmpty && cs.all is_hostname_char)
  || (cs.getLast? == some '\n' && !cs.dropLast.isEmpty && cs.dropLast.all is_hostname_char)

/-- `validate_hostname` (src/python/main.py lines 27-33): regex check
first, then the length bound.  Note the length-rejection message does not
include the supplied value. -/
def validate_hostname (hostname : String) : Except Exc String :=
  if !hostname_regex_match hostname then
    .error (.valueError ("Invalid hostname format: " ++ hostname))
  else if hostname.length > 253 then
    .error (.valueError "Hostname too long")
  else
    .ok hostname

/-- The set `valid_modes` of `validate_ssl_mode` (src/python/main.py line 38). -/
def valid_modes : List String := ["require", "prefer", "allow", "disable"]

/-- The tail of the `validate_ssl_mode` error message, after the offending
value.  In the source it interpolates the Python set repr of
`valid_modes`, whose element order is unspecified; the claims under
verification depend only on the offending value being present, never on
this suffix, so a fixed rendering is used. -/
def ssl_mode_error_suffix : String :=
  ". Must be one of \x7brequire, prefer, allow, disable\x7d"

/-- `validate_ssl_mode` (src/python/main.py lines 36-41). -/
def validate_ssl_mode (sslmode : String) : Except Exc String :=
  if !(valid_modes.contains sslmode) then
    .error (.valueError ("Invalid SSL mode: " ++ sslmode ++ ssl_mode_error_suffix))
  else
    .ok sslmode

/-- The `connection_params` dict built by `get_connection_config`
(src/python/main.py lines 62-71). -/
structure ConnectionParams where
  host : String
  hostaddr : String
  port : Nat
  database : String
  user : String
  password : String
  sslmode : String
  connect_timeout : Nat
deriving DecidableEq, Repr

/-- The list `required_vars` of `get_connection_config`
(src/python/main.py line 46), in source order. -/
def required_vars : List String :=
  ["HOSTNAME", "PGHOSTADDR", "PGPASSWORD", "PGSSLMODE"]

/-- `get_connection_config` (src/python/main.py lines 44-73): read the four
required variables in the fixed order of `required_vars`
(HOSTNAME, PGHOSTADDR, PGPASSWORD, PGSSLMODE) — the source loop is
unrolled here — raising on the first missing one; then validate the
hostname, then the SSL mode; on success return the connection parameters
together with the hostname. -/
def get_connection_config (env : Env) : Except Exc (ConnectionParams × String) :=
  match readVar env "HOSTNAME" with
  | .error e => .error e
  | .ok hostname0 =>
    match readVar env "PGHOSTADDR" with
    | .error e => .error e
    | .ok pghostaddr =>
      match readVar env "PGPASSWORD" with
      | .error e => .error e
      | .ok pgpassword =>
        match readVar env "PGSSLMODE" with
        | .error e => .error e
        | .ok pgsslmode0 =>
          match validate_hostname hostname0 with
          | .error e => .error e
          | .ok hostname =>
            match validate_ssl_mode pgsslmode0 with
            | .error e => .error e
            | .ok pgsslmode =>
              .ok ({ host := hostname,
                     hostaddr := pghostaddr,
                     port := 5432,
                     database := "postgres",
                     user := "admin",
                     password := pgpassword,
                     sslmode := pgsslmode,
                     connect_timeout := 30 }, hostname)

/-- One row of the fixed introspection query (a `RealDictCursor` row with
keys `database`, `user`, `server_version`). -/
structure ConnInfoRow where
  database : String
  user : String
  server_version : String
deriving DecidableEq, Repr

/-- Outcome of the `psycopg2.connect(**connection_params)` call, supplied
by the environment.  psycopg2 raises `OperationalError` for
connection-phase failures: timeout, connection refused, authentication
rejected, TLS negotiation failure. -/
inductive ConnectOutcome where
  | ok
  | operationalError (msg : String)
  | databaseError (msg : String)
  | otherError (msg : String)
deriving DecidableEq, Repr

/-- Outcome of `cursor.execute(query)` followed by `cursor.fetchone()`,
supplied by the environment: either the result rows (of which `fetchone`
takes the first, returning `None` when there are none), or a raised
exception. -/
inductive QueryOutcome where
  | rows (rs : List ConnInfoRow)
  | operationalError (msg : String)
  | databaseError (msg : String)
  | otherError (msg : String)
deriving DecidableEq, Repr

/-- The behaviour of the external collaborators in one run: the process
environment, what the connection attempt does, and what the query does. -/
structure World where
  env : Env
  connect : ConnectOutcome
  query : QueryOutcome
deriving DecidableEq, Repr

/-- The `psycopg2.connect` call as an exception-or-unit result. -/
def connect_result (c : ConnectOutcome) : Except Exc Unit :=
  match c with
  | .ok => .ok ()
  | .operationalError m => .error (.operationalError m)
  | .databaseError m => .error (.databaseError m)
  | .otherError m => .error (.otherError m)

/-- `execute_connection_info_query` (src/python/main.py lines 76-86):
execute the fixed query and return `cursor.fetchone()`, which is `None`
exactly when the query produced zero rows. -/
def execute_connection_info_query (q : QueryOutcome) : Except Exc (Option ConnInfoRow) :=
  match q with
  | .rows rs => .ok rs.head?
  | .operationalError m => .error (.operationalError m)
  | .databaseError m => .error (.databaseError m)
  | .otherError m => .error (.otherError m)

/-- The full info block printed by `display_connection_info` when the row
exists (src/python/main.py lines 91-98); the separator line is `"-" * 30`. -/
def info_block_lines (info : ConnInfoRow) (hostname : String) : List String :=
  ["",
   "Connection Information:",
   String.mk (List.replicate 30 '-'),
   "Database: " ++ info.database,
   "User: " ++ info.user,
   "Host: 127.0.0.1 (via tunnel to " ++ hostname ++ ")",
   "Port: 5432",
   "SSL Status: SSL connection (required by DSQL)",
   "Server Version: " ++ info.server_version]

/-- The first three lines of the info block: what is on stdout before the
first field access into the row. -/
def info_header_lines : List String :=
  ["",
   "Connection Information:",
   String.mk (List.replicate 30 '-')]

/-- `display_connection_info` (src/python/main.py lines 89-98).  Returns
the lines printed, and the exception raised mid-print when `conn_info` is
`None`: the header and separator are printed, then evaluating
`conn_info['database']` inside the f-string raises `TypeError` before the
`Database:` line is printed.  (The real `TypeError` text quotes the word
NoneType; the quotes are omitted here, and no claim depends on this
message text.) -/
def display_connection_info (conn_info : Option ConnInfoRow) (hostname : String) :
    List String × Option Exc :=
  match conn_info with
  | some info => (info_block_lines info hostname, none)
  | none => (info_header_lines, some (.otherError "NoneType object is not subscriptable"))

/-- The remediation block printed after a `Configuration Error` message
(src/python/main.py lines 131-135), listing all four variables. -/
def config_remediation_lines : List String :=
  ["",
   "Required environment variables:",
   "- HOSTNAME: DSQL cluster private DNS endpoint",
   "- PGHOSTADDR: Tunnel localhost address (127.0.0.1)",
   "- PGPASSWORD: Generated auth token",
   "- PGSSLMODE: SSL mode (require)"]

/-- The three remediation hints printed after a `Connection Error` message
(src/python/main.py lines 140-143). -/
def connection_remediation_lines : List String :=
  ["",
   "Troubleshooting tips:",
   "- Ensure SSH or SSM tunnel is active",
   "- Verify tunnel is forwarding to 127.0.0.1:5432",
   "- Check that auth token is valid and not expired"]

/-- The stderr lines produced by the `except` clause that catches `e`
(src/python/main.py lines 129-152).  Every clause ends in `sys.exit(1)`. -/
def stderr_for (e : Exc) : List String :=
  match e with
  | .valueError m => ("Configuration Error: " ++ m) :: config_remediation_lines
  | .operationalError m => ("Connection Error: " ++ m) :: connection_remediation_lines
  | .databaseError m => ["Database Error: " ++ m]
  | .otherError m => ["Unexpected Error: " ++ m]

/-- The observable result of one run: stdout lines, stderr lines, and the
process exit code. -/
structure RunResult where
  stdoutLines : List String
  stderrLines : List String
  exitCode : Nat
deriving DecidableEq, Repr

/-- The two banner lines printed before the `try` block
(src/python/main.py lines 103-104); the second is `"=" * 50`. -/
def banner_lines : List String :=
  ["AWS DSQL Connectivity Test - Python Implementation",
   String.mk (List.replicate 50 '=')]

/-- Stdout up to and including `Reading environment variables...`
(src/python/main.py line 108), printed before `get_connection_config`. -/
def out0_lines : List String :=
  banner_lines ++ ["Reading environment variables..."]

/-- Stdout up to and including `Establishing connection...`
(src/python/main.py lines 110-114), printed before `psycopg2.connect`. -/
def out1_lines (hostaddr hostname : String) : List String :=
  out0_lines ++
    ["Connecting to DSQL cluster: " ++ hostname,
     "Via tunnel: " ++ hostaddr ++ ":5432",
     "",
     "Establishing connection..."]

/-- Stdout up to and including `Executing connection info query...`
(src/python/main.py lines 117-120), printed before the query runs. -/
def out2_lines (hostaddr hostname : String) : List String :=
  out1_lines hostaddr hostname ++
    ["Connection established successfully!",
     "Executing connection info query..."]

/-- The closing messages printed after the `with` block
(src/python/main.py lines 126-127). -/
def closing_lines : List String :=
  ["",
   "Connection closed successfully!",
   "DSQL connectivity test completed."]

/-- `main` (src/python/main.py lines 101-152) as a function of the
external world.  Mirrors the source line by line: progress prints,
configuration, connection, query, display, closing messages; any raised
exception reaches exactly one `except` clause, which prints its
categorized message to stderr and exits with code 1. -/
def main (w : World) : RunResult :=
  match get_connection_config w.env with
  | .error e => ⟨out0_lines, stderr_for e, 1⟩
  | .ok (params, hostname) =>
    match connect_result w.connect with
    | .error e => ⟨out1_lines params.hostaddr hostname, stderr_for e, 1⟩
    | .ok _ =>
      match execute_connection_info_query w.query with
      | .error e => ⟨out2_lines params.hostaddr hostname, stderr_for e, 1⟩
      | .ok conn_info =>
        match display_connection_info conn_info hostname with
        | (lines, some e) =>
          ⟨out2_lines params.hostaddr hostname ++ lines, stderr_for e, 1⟩
        | (lines, none) =>
          ⟨out2_lines params.hostaddr hostname ++ lines ++ closing_lines, [], 0⟩

/-- The four categorized message heads, one per `except` clause of `main`. -/
def category_prefixes : List String :=
  ["Configuration Error: ", "Connection Error: ", "Database Error: ", "Unexpected Error: "]

/-- A line is categorized when it starts with one of the four category
heads. -/
def is_categorized (line : String) : Bool :=
  category_prefixes.any (fun p => p.data.isPrefixOf line.data)

/-- The full success path of one run: the configuration loads, the
connection opens, and the query returns at least one row (so that
`fetchone` yields a row). -/
def successPath (w : World) : Prop :=
  (∃ p h, get_connection_config w.env = .ok (p, h)) ∧
  w.connect = .ok ∧
  ∃ r rs, w.query = .rows (r :: rs)

/-- A 254-character hostname (254 repetitions of the letter a): all its
characters are in the allowed class, but it exceeds the 253-character
bound. -/
def long_hostname : String := String.mk (List.replicate 254 'a')

/-- A concrete valid environment, used to instantiate universally
quantified theorems on explicit inputs. -/
def example_env : Env :=
  ⟨some "db.internal.example", some "127.0.0.1", some "token123", some "require"⟩

/-- A concrete introspection-query row. -/
def example_row : ConnInfoRow := ⟨"postgres", "admin", "PostgreSQL 15.0"⟩

/-- The connection parameters that `get_connection_config` builds from
`example_env`. -/
def example_params : ConnectionParams :=
  ⟨"db.internal.example", "127.0.0.1", 5432, "postgres", "admin",
   "token123", "require", 30⟩

/-! ## Shape lemmas: the value of `main` on each control path -/

lemma main_of_config_error (w : World) (e : Exc)
    (hc : get_connection_config w.env = .error e) :
    main w = ⟨out0_lines, stderr_for e, 1⟩ := by
  simp [main, hc]

lemma main_of_connect_error (w : World) (p : ConnectionParams) (h : String) (e : Exc)
    (hc : get_connection_config w.env = .ok (p, h))
    (he : connect_result w.connect = .error e) :
    main w = ⟨out1_lines p.hostaddr h, stderr_for e, 1⟩ := by
  simp [main, hc, he]

lemma main_of_query_error (w : World) (p : ConnectionParams) (h : String) (e : Exc)
    (hc : get_connection_config w.env = .ok (p, h))
    (hok : w.connect = .ok)
    (he : execute_connection_info_query w.query = .error e) :
    main w = ⟨out2_lines p.hostaddr h, stderr_for e, 1⟩ := by
  simp [main, hc, hok, connect_result, he]

lemma main_of_zero_rows (w : World) (p : ConnectionParams) (h : String)
    (hc : get_connection_config w.env = .ok (p, h))
    (hok : w.connect = .ok)
    (hq : w.query = .rows []) :
    main w = ⟨out2_lines p.hostaddr h ++ info_header_lines,
              stderr_for (.otherError "NoneType object is not subscriptable"), 1⟩ := by
  simp [main, hc, hok, connect_result, hq, execute_connection_info_query,
        display_connection_info, stderr_for]

lemma main_of_success (w : World) (p : ConnectionParams) (h : String)
    (r : ConnInfoRow) (rs : List ConnInfoRow)
    (hc : get_connection_config w.env = .ok (p, h))
    (hok : w.connect = .ok)
    (hq : w.query = .rows (r :: rs)) :
    main w = ⟨out2_lines p.hostaddr h ++ info_block_lines r h ++ closing_lines, [], 0⟩ := by
  simp [main, hc, hok, connect_result, hq, execute_connection_info_query,
        display_connection_info]

/-! ## Helper lemmas about the configuration loader -/

lemma readVar_error_of_missing (env : Env) (var : String)
    (h : envMissing env var = true) :
    readVar env var =
      .error (.valueError ("Required environment variable " ++ var ++ " is not set")) := by
  simp [readVar, h]

lemma readVar_ok_of_present (env : Env) (var : String)
    (h : envMissing env var = false) :
    readVar env var = .ok (envValue env var) := by
  simp [readVar, h]

lemma gcc_error_of_missing_HOSTNAME (env : Env)
    (h1 : envMissing env "HOSTNAME" = true) :
    get_connection_config env =
      .error (.valueError ("Required environment variable " ++ "HOSTNAME" ++ " is not set")) := by
  simp [get_connection_config, readVar, h1]

lemma gcc_error_of_missing_PGHOSTADDR (env : Env)
    (h1 : envMissing env "HOSTNAME" = false)
    (h2 : envMissing env "PGHOSTADDR" = true) :
    get_connection_config env =
      .error (.valueError ("Required environment variable " ++ "PGHOSTADDR" ++ " is not set")) := by
  simp [get_connection_config, readVar, h1, h2]

lemma gcc_error_of_missing_PGPASSWORD (env : Env)
    (h1 : envMissing env "HOSTNAME" = false)
    (h2 : envMissing env "PGHOSTADDR" = false)
    (h3 : envMissing env "PGPASSWORD" = true) :
    get_connection_config env =
      .error (.valueError ("Required environment variable " ++ "PGPASSWORD" ++ " is not set")) := by
  simp [get_connection_config, readVar, h1, h2, h3]

lemma gcc_error_of_missing_PGSSLMODE (env : Env)
    (h1 : envMissing env "HOSTNAME" = false)
    (h2 : envMissing env "PGHOSTADDR" = false)
    (h3 : envMissing env "PGPASSWORD" = false)
    (h4 : envMissing env "PGSSLMODE" = true) :
    get_connection_config env =
      .error (.valueError ("Required environment variable " ++ "PGSSLMODE" ++ " is not set")) := by
  simp [get_connection_config, readVar, h1, h2, h3, h4]

lemma gcc_error_of_invalid_hostname (env : Env) (e : Exc)
    (h1 : envMissing env "HOSTNAME" = false)
    (h2 : envMissing env "PGHOSTADDR" = false)
    (h3 : envMissing env "PGPASSWORD" = false)
    (h4 : envMissing env "PGSSLMODE" = false)
    (hv : validate_hostname (envValue env "HOSTNAME") = .error e) :
    get_connection_config env = .error e := by
  simp [get_connection_config, readVar, h1, h2, h3, h4, hv]

lemma gcc_error_of_invalid_ssl_mode (env : Env) (hst : String) (e : Exc)
    (h1 : envMissing env "HOSTNAME" = false)
    (h2 : envMissing env "PGHOSTADDR" = false)
    (h3 : envMissing env "PGPASSWORD" = false)
    (h4 : envMissing env "PGSSLMODE" = false)
    (hv : validate_hostname (envValue env "HOSTNAME") = .ok hst)
    (hs : validate_ssl_mode (envValue env "PGSSLMODE") = .error e) :
    get_connection_config env = .error e := by
  simp [get_connection_config, readVar, h1, h2, h3, h4, hv, hs]

lemma validate_ssl_mode_ok_of_mem (m : String) (hm : m ∈ valid_modes) :
    validate_ssl_mode m = .ok m := by
  simp [validate_ssl_mode, hm]

lemma gcc_ok_of_valid (h a p m : String)
    (hh : h ≠ "") (ha : a ≠ "") (hp : p ≠ "") (hm : m ≠ "")
    (hvh : validate_hostname h = .ok h)
    (hvm : m ∈ valid_modes) :
    get_connection_config ⟨some h, some a, some p, some m⟩ =
      .ok ({ host := h, hostaddr := a, port := 5432, database := "postgres",
             user := "admin", password := p, sslmode := m,
             connect_timeout := 30 }, h) := by
  simp [get_connection_config, readVar, envMissing, envGet, envValue,
        hh, ha, hp, hm, hvh, validate_ssl_mode_ok_of_mem m hvm]

/-! ## Helper lemmas about categorized stderr lines -/

lemma is_categorized_append (pre m : String) (hpre : pre ∈ category_prefixes) :
    is_categorized (pre ++ m) = true := by
  unfold is_categorized
  rw [List.any_eq_true]
  refine ⟨pre, hpre, ?_⟩
  rw [String.data_append, List.isPrefixOf_iff_prefix]
  exact List.prefix_append _ _

lemma countP_stderr_for (e : Exc) : (stderr_for e).countP is_categorized = 1 := by
  cases e with
  | valueError m =>
    have hpos := is_categorized_append "Configuration Error: " m (by decide)
    simp [stderr_for, List.countP_cons, hpos]
    decide
  | operationalError m =>
    have hpos := is_categorized_append "Connection Error: " m (by decide)
    simp [stderr_for, List.countP_cons, hpos]
    decide
  | databaseError m =>
    have hpos := is_categorized_append "Database Error: " m (by decide)
    simp [stderr_for, List.countP_cons, hpos]
  | otherError m =>
    have hpos := is_categorized_append "Unexpected Error: " m (by decide)
    simp [stderr_for, List.countP_cons, hpos]

/-! ## Helper lemmas: the fixed SSL status line marks the info block -/

lemma connecting_line_ne_marker (h : String) :
    "Connecting to DSQL cluster: " ++ h ≠ "SSL Status: SSL connection (required by DSQL)" := by
  intro heq
  have hd := congrArg String.data heq
  rw [String.data_append] at hd
  simp at hd

lemma via_line_ne_marker (a : String) :
    "Via tunnel: " ++ a ++ ":5432" ≠ "SSL Status: SSL connection (required by DSQL)" := by
  intro heq
  have hd := congrArg String.data heq
  rw [String.data_append, String.data_append] at hd
  simp at hd

lemma marker_not_mem_out1 (a h : String) :
    "SSL Status: SSL connection (required by DSQL)" ∉ out1_lines a h := by
  intro hmem
  simp [out1_lines, out0_lines, banner_lines] at hmem
  rcases hmem with h1 | h1
  · exact connecting_line_ne_marker h h1.symm
  · exact via_line_ne_marker a h1.symm

lemma marker_not_mem_out2 (a h : String) :
    "SSL Status: SSL connection (required by DSQL)" ∉ out2_lines a h := by
  intro hmem
  simp [out2_lines, out1_lines, out0_lines, banner_lines] at hmem
  rcases hmem with h1 | h1
  · exact connecting_line_ne_marker h h1.symm
  · exact via_line_ne_marker a h1.symm

lemma marker_mem_info_block (info : ConnInfoRow) (h : String) :
    "SSL Status: SSL connection (required by DSQL)" ∈ info_block_lines info h := by
  simp [info_block_lines]

lemma marker_not_mem_out2_header (a h : String) :
    "SSL Status: SSL connection (required by DSQL)" ∉ out2_lines a h ++ info_header_lines := by
  intro hmem
  rcases List.mem_append.mp hmem with h1 | h1
  · exact marker_not_mem_out2 a h h1
  · exact absurd h1 (by decide)

lemma marker_not_mem_out0 :
    "SSL Status: SSL connection (required by DSQL)" ∉ out0_lines := by
  decide

/-! ## Helper lemmas about the success predicate -/

lemma not_successPath_of_gcc_error (w : World) (e : Exc)
    (hgcc : get_connection_config w.env = .error e) : ¬ successPath w := by
  rintro ⟨⟨p, h, hok⟩, -, -⟩
  rw [hgcc] at hok
  cases hok

lemma not_successPath_of_connect_ne (w : World)
    (hconn : w.connect ≠ .ok) : ¬ successPath w := by
  rintro ⟨-, hok, -⟩
  exact hconn hok

lemma not_successPath_of_rows_nil (w : World)
    (hq : w.query = .rows []) : ¬ successPath w := by
  rintro ⟨-, -, r, rs, hrows⟩
  rw [hq] at hrows
  cases hrows

lemma not_successPath_of_query_exc (w : World)
    (hq : ∀ rs, w.query ≠ .rows rs) : ¬ successPath w := by
  rintro ⟨-, -, r, rs, hrows⟩
  exact hq (r :: rs) hrows

/-- On any configuration error, the run stops at `out0_lines`, prints the
single `Configuration Error` message with the shared remediation block,
and is independent of the connection and query outcomes. -/
lemma config_error_run (w : World) (m : String)
    (hgcc : get_connection_config w.env = .error (.valueError m)) :
    main w = ⟨out0_lines, ("Configuration Error: " ++ m) :: config_remediation_lines, 1⟩ ∧
    "Establishing connection..." ∉ (main w).stdoutLines ∧
    ∀ c q, main ⟨w.env, c, q⟩ = main w := by
  have hm := main_of_config_error w _ hgcc
  refine ⟨by rw [hm]; rfl,
          by rw [hm]; show "Establishing connection..." ∉ out0_lines; decide,
          fun c q => ?_⟩
  rw [main_of_config_error ⟨w.env, c, q⟩ _ hgcc, hm]

/-! ## The claims -/

/-- **C3.** The claim states that `validate_hostname` rejects (with
`InvalidHostname`) exactly the non-empty strings that contain a character
outside `[a-zA-Z0-9.-]` or have length at least 254.  The code deviates:
Python `$` also matches just before a trailing newline, so the hostname
"a\n" — which contains the newline character, outside the class — is
accepted unchanged, and the configuration loader then succeeds with it.
This theorem evaluates the code at that failing input. -/
theorem claim_C3 :
    validate_hostname "a\n" = .ok "a\n" ∧
    (∃ c ∈ ("a\n" : String).data, is_hostname_char c = false) ∧
    get_connection_config ⟨some "a\n", some "127.0.0.1", some "token", some "require"⟩ =
      .ok ({ host := "a\n", hostaddr := "127.0.0.1", port := 5432,
             database := "postgres", user := "admin", password := "token",
             sslmode := "require", connect_timeout := 30 }, "a\n") := by
  refine ⟨by decide, ⟨'\n', by decide, by decide⟩, by decide⟩

/-- **C5.** For every non-empty SSL mode string, `validate_ssl_mode` fails
with an `InvalidSslMode` `ValueError` iff the string is outside the fixed
set `{require, prefer, allow, disable}`; each member of the set is
accepted and returned unchanged. -/
theorem claim_C5 :
    (∀ s : String, s ≠ "" →
       ((∃ msg, validate_ssl_mode s = .error (.valueError msg)) ↔ s ∉ valid_modes)) ∧
    (∀ s ∈ valid_modes, validate_ssl_mode s = .ok s) := by
  constructor
  · intro s _
    constructor
    · rintro ⟨msg, hmsg⟩ hmem
      rw [validate_ssl_mode_ok_of_mem s hmem] at hmsg
      cases hmsg
    · intro hmem
      refine ⟨"Invalid SSL mode: " ++ s ++ ssl_mode_error_suffix, ?_⟩
      simp [validate_ssl_mode, hmem]
  · exact fun s hs => validate_ssl_mode_ok_of_mem s hs

/-- Witness for C5 at the concrete inputs "verify-full" and "require". -/
theorem claim_C5_witness :
    ((∃ msg, validate_ssl_mode "verify-full" = .error (.valueError msg)) ↔
       "verify-full" ∉ valid_modes) ∧
    validate_ssl_mode "require" = .ok "require" :=
  ⟨claim_C5.1 "verify-full" (by decide), claim_C5.2 "require" (by decide)⟩

/-- **C6.** When all four variables are present and non-empty, the
hostname passes validation and the SSL mode is in the allowed set, the
configuration loader returns parameters with port 5432, database
"postgres", user "admin", connect timeout 30, host = HOSTNAME,
hostaddr = PGHOSTADDR, password = PGPASSWORD, sslmode = PGSSLMODE. -/
theorem claim_C6 (h a p m : String)
    (hh : h ≠ "") (ha : a ≠ "") (hp : p ≠ "") (hm : m ≠ "")
    (hvh : validate_hostname h = .ok h)
    (hvm : m ∈ valid_modes) :
    get_connection_config ⟨some h, some a, some p, some m⟩ =
      .ok ({ host := h, hostaddr := a, port := 5432, database := "postgres",
             user := "admin", password := p, sslmode := m,
             connect_timeout := 30 }, h) :=
  gcc_ok_of_valid h a p m hh ha hp hm hvh hvm

/-- Witness for C6 at a concrete valid environment. -/
theorem claim_C6_witness :
    get_connection_config ⟨some "db.internal.example", some "127.0.0.1",
                           some "token123", some "require"⟩ =
      .ok ({ host := "db.internal.example", hostaddr := "127.0.0.1",
             port := 5432, database := "postgres", user := "admin",
             password := "token123", sslmode := "require",
             connect_timeout := 30 }, "db.internal.example") :=
  claim_C6 "db.internal.example" "127.0.0.1" "token123" "require"
    (by decide) (by decide) (by decide) (by decide) (by decide) (by decide)

/-- **C4, counterexample.** The claim states that every `InvalidHostname`
message contains the supplied value, including length rejections.  But a
254-character hostname is rejected with the fixed message
"Hostname too long", which does not contain the supplied value. -/
theorem claim_C4_counterexample :
    validate_hostname long_hostname = .error (.valueError "Hostname too long") ∧
    ¬ (long_hostname.data <:+: ("Hostname too long" : String).data) := by
  constructor
  · decide
  · intro hinf
    have hlen := List.IsInfix.length_le hinf
    have h1 : long_hostname.data.length = 254 := by decide
    have h2 : ("Hostname too long" : String).data.length = 17 := by decide
    rw [h1, h2] at hlen
    omega

/-- **C4, amended.** Hostnames rejected by the format check and SSL modes
rejected by the enum check are reported with the offending value embedded
in the message; hostnames rejected for excessive length get the fixed
message "Hostname too long" without the value. -/
theorem claim_C4 :
    (∀ h : String, hostname_regex_match h = false →
       validate_hostname h = .error (.valueError ("Invalid hostname format: " ++ h)) ∧
       h.data <:+: ("Invalid hostname format: " ++ h).data) ∧
    (∀ h : String, hostname_regex_match h = true → h.length > 253 →
       validate_hostname h = .error (.valueError "Hostname too long")) ∧
    (∀ s : String, s ∉ valid_modes →
       validate_ssl_mode s =
         .error (.valueError ("Invalid SSL mode: " ++ s ++ ssl_mode_error_suffix)) ∧
       s.data <:+: ("Invalid SSL mode: " ++ s ++ ssl_mode_error_suffix).data) := by
  refine ⟨fun h hre => ⟨?_, ?_⟩, fun h hre hlen => ?_, fun s hs => ⟨?_, ?_⟩⟩
  · simp [validate_hostname, hre]
  · rw [String.data_append]
    exact (List.suffix_append _ _).isInfix
  · simp [validate_hostname, hre, hlen]
  · simp [validate_ssl_mode, hs]
  · rw [String.data_append, String.data_append]
    exact List.infix_append ..

/-- Witness for C4 at concrete inputs: a malformed hostname, the
254-character hostname, and an invalid SSL mode. -/
theorem claim_C4_witness :
    (validate_hostname "host name;drop" =
       .error (.valueError ("Invalid hostname format: " ++ "host name;drop")) ∧
     ("host name;drop" : String).data <:+:
       ("Invalid hostname format: " ++ "host name;drop").data) ∧
    validate_hostname long_hostname = .error (.valueError "Hostname too long") ∧
    (validate_ssl_mode "verify-full" =
       .error (.valueError ("Invalid SSL mode: " ++ "verify-full" ++ ssl_mode_error_suffix)) ∧
     ("verify-full" : String).data <:+:
       ("Invalid SSL mode: " ++ "verify-full" ++ ssl_mode_error_suffix).data) :=
  ⟨claim_C4.1 "host name;drop" (by decide),
   claim_C4.2.1 long_hostname (by decide) (by decide),
   claim_C4.2.2 "verify-full" (by decide)⟩

/-- **C2.** If at least one required variable is absent or empty, the run
fails with a `Configuration Error` message naming a missing variable, the
progress line `Establishing connection...` is never printed, the result
does not depend on the connection or query outcome (no connection attempt
is made), and the exit code is 1. -/
theorem claim_C2 (w : World)
    (hmiss : envMissing w.env "HOSTNAME" = true ∨ envMissing w.env "PGHOSTADDR" = true ∨
             envMissing w.env "PGPASSWORD" = true ∨ envMissing w.env "PGSSLMODE" = true) :
    ∃ v, v ∈ required_vars ∧ envMissing w.env v = true ∧
      main w = ⟨out0_lines,
        ("Configuration Error: " ++
          ("Required environment variable " ++ v ++ " is not set")) ::
          config_remediation_lines, 1⟩ ∧
      "Establishing connection..." ∉ (main w).stdoutLines ∧
      ∀ c q, main ⟨w.env, c, q⟩ = main w := by
  rcases h1 : envMissing w.env "HOSTNAME" with - | -
  case true =>
    obtain ⟨he, hne, hind⟩ := config_error_run w _ (gcc_error_of_missing_HOSTNAME w.env h1)
    exact ⟨"HOSTNAME", by decide, h1, he, hne, hind⟩
  case false =>
  rcases h2 : envMissing w.env "PGHOSTADDR" with - | -
  case true =>
    obtain ⟨he, hne, hind⟩ :=
      config_error_run w _ (gcc_error_of_missing_PGHOSTADDR w.env h1 h2)
    exact ⟨"PGHOSTADDR", by decide, h2, he, hne, hind⟩
  case false =>
  rcases h3 : envMissing w.env "PGPASSWORD" with - | -
  case true =>
    obtain ⟨he, hne, hind⟩ :=
      config_error_run w _ (gcc_error_of_missing_PGPASSWORD w.env h1 h2 h3)
    exact ⟨"PGPASSWORD", by decide, h3, he, hne, hind⟩
  case false =>
  rcases h4 : envMissing w.env "PGSSLMODE" with - | -
  case true =>
    obtain ⟨he, hne, hind⟩ :=
      config_error_run w _ (gcc_error_of_missing_PGSSLMODE w.env h1 h2 h3 h4)
    exact ⟨"PGSSLMODE", by decide, h4, he, hne, hind⟩
  case false =>
    rw [h1, h2, h3, h4] at hmiss
    simp at hmiss

/-- Witness for C2 at a concrete environment with PGPASSWORD set empty. -/
theorem claim_C2_witness :
    ∃ v, v ∈ required_vars ∧
      envMissing ⟨some "db.internal.example", some "127.0.0.1", some "", some "require"⟩ v = true ∧
      main ⟨⟨some "db.internal.example", some "127.0.0.1", some "", some "require"⟩,
            .ok, .rows [example_row]⟩ =
        ⟨out0_lines,
         ("Configuration Error: " ++
           ("Required environment variable " ++ v ++ " is not set")) ::
           config_remediation_lines, 1⟩ ∧
      "Establishing connection..." ∉
        (main ⟨⟨some "db.internal.example", some "127.0.0.1", some "", some "require"⟩,
               .ok, .rows [example_row]⟩).stdoutLines ∧
      ∀ c q,
        main ⟨⟨some "db.internal.example", some "127.0.0.1", some "", some "require"⟩, c, q⟩ =
          main ⟨⟨some "db.internal.example", some "127.0.0.1", some "", some "require"⟩,
                .ok, .rows [example_row]⟩ :=
  claim_C2 ⟨⟨some "db.internal.example", some "127.0.0.1", some "", some "require"⟩,
            .ok, .rows [example_row]⟩ (by decide)

/-- **C10.** The presence checks run in the fixed order HOSTNAME,
PGHOSTADDR, PGPASSWORD, PGSSLMODE, and the first missing variable is
reported alone; presence checks precede hostname validation, which
precedes SSL mode validation; and all three configuration failure kinds
are `ValueError`s handled by the single `Configuration Error` clause,
whose fixed remediation block names all four variables. -/
theorem claim_C10 :
    (∀ env : Env, envMissing env "HOSTNAME" = true →
       get_connection_config env =
         .error (.valueError ("Required environment variable " ++ "HOSTNAME" ++ " is not set"))) ∧
    (∀ env : Env, envMissing env "HOSTNAME" = false →
       envMissing env "PGHOSTADDR" = true →
       get_connection_config env =
         .error (.valueError ("Required environment variable " ++ "PGHOSTADDR" ++ " is not set"))) ∧
    (∀ env : Env, envMissing env "HOSTNAME" = false →
       envMissing env "PGHOSTADDR" = false →
       envMissing env "PGPASSWORD" = true →
       get_connection_config env =
         .error (.valueError ("Required environment variable " ++ "PGPASSWORD" ++ " is not set"))) ∧
    (∀ env : Env, envMissing env "HOSTNAME" = false →
       envMissing env "PGHOSTADDR" = false →
       envMissing env "PGPASSWORD" = false →
       envMissing env "PGSSLMODE" = true →
       get_connection_config env =
         .error (.valueError ("Required environment variable " ++ "PGSSLMODE" ++ " is not set"))) ∧
    (∀ env : Env, envMissing env "HOSTNAME" = false →
       envMissing env "PGHOSTADDR" = false →
       envMissing env "PGPASSWORD" = false →
       envMissing env "PGSSLMODE" = false →
       ∀ e, validate_hostname (envValue env "HOSTNAME") = .error e →
         get_connection_config env = .error e) ∧
    (∀ env : Env, envMissing env "HOSTNAME" = false →
       envMissing env "PGHOSTADDR" = false →
       envMissing env "PGPASSWORD" = false →
       envMissing env "PGSSLMODE" = false →
       ∀ hst, validate_hostname (envValue env "HOSTNAME") = .ok hst →
       ∀ e, validate_ssl_mode (envValue env "PGSSLMODE") = .error e →
         get_connection_config env = .error e) ∧
    (∀ m : String, stderr_for (.valueError m) =
       ("Configuration Error: " ++ m) :: config_remediation_lines) ∧
    (∀ v ∈ required_vars, ∃ l ∈ config_remediation_lines, v.data <:+: l.data) := by
  refine ⟨gcc_error_of_missing_HOSTNAME, gcc_error_of_missing_PGHOSTADDR,
          gcc_error_of_missing_PGPASSWORD, gcc_error_of_missing_PGSSLMODE,
          fun env h1 h2 h3 h4 e hv =>
            gcc_error_of_invalid_hostname env e h1 h2 h3 h4 hv,
          fun env h1 h2 h3 h4 hst hv e hs =>
            gcc_error_of_invalid_ssl_mode env hst e h1 h2 h3 h4 hv hs,
          fun m => rfl, by decide⟩

/-- Witness for C10: an environment with three simultaneous problems
(PGHOSTADDR and PGPASSWORD missing, PGSSLMODE invalid) reports only the
first missing variable in checking order. -/
theorem claim_C10_witness :
    get_connection_config ⟨some "db", none, none, some "bad-mode"⟩ =
      .error (.valueError ("Required environment variable " ++ "PGHOSTADDR" ++ " is not set")) :=
  claim_C10.2.1 ⟨some "db", none, none, some "bad-mode"⟩ (by decide) (by decide)

/-- **C1, counterexample.** The claim states that a zero-row query
response fails with the `QueryFailure` category, which in the code is the
`psycopg2.Error` handler printing `Database Error`.  In fact `fetchone()`
returns `None`, subscripting it raises `TypeError`, and the catch-all
clause prints `Unexpected Error` instead: no stderr line carries the
`Database Error` head. -/
theorem claim_C1_counterexample :
    (main ⟨example_env, .ok, .rows []⟩).stderrLines =
      ["Unexpected Error: NoneType object is not subscriptable"] ∧
    (main ⟨example_env, .ok, .rows []⟩).exitCode = 1 ∧
    ∀ l ∈ (main ⟨example_env, .ok, .rows []⟩).stderrLines,
      ("Database Error: " : String).data.isPrefixOf l.data = false := by
  refine ⟨by decide, by decide, by decide⟩

/-- **C1, amended.** With a valid environment, a successful connection and
a zero-row query response, the run fails with the `UnexpectedFailure`
category — a single categorized `Unexpected Error` message on stderr,
neither a crash nor silent empty output — and exits with code 1. -/
theorem claim_C1 (w : World) (p : ConnectionParams) (h : String)
    (hc : get_connection_config w.env = .ok (p, h))
    (hok : w.connect = .ok)
    (hq : w.query = .rows []) :
    (main w).exitCode = 1 ∧
    (main w).stderrLines = ["Unexpected Error: NoneType object is not subscriptable"] ∧
    (main w).stderrLines.countP is_categorized = 1 := by
  have hm := main_of_zero_rows w p h hc hok hq
  rw [hm]
  refine ⟨rfl, rfl, ?_⟩
  show (["Unexpected Error: NoneType object is not subscriptable"] : List String).countP
    is_categorized = 1
  decide

/-- Witness for C1 at the concrete valid environment with a zero-row
response. -/
theorem claim_C1_witness :
    (main ⟨example_env, .ok, .rows []⟩).exitCode = 1 ∧
    (main ⟨example_env, .ok, .rows []⟩).stderrLines =
      ["Unexpected Error: NoneType object is not subscriptable"] ∧
    (main ⟨example_env, .ok, .rows []⟩).stderrLines.countP is_categorized = 1 :=
  claim_C1 ⟨example_env, .ok, .rows []⟩ example_params "db.internal.example"
    (by decide) rfl rfl

/-- **C7.** Whenever the connection attempt fails (psycopg2 signals
timeout, refusal, authentication rejection and TLS failure alike as
`OperationalError`), stderr is exactly one `Connection Error` message
followed by the three remediation hints, and the exit code is 1. -/
theorem claim_C7 (w : World) (p : ConnectionParams) (h msg : String)
    (hc : get_connection_config w.env = .ok (p, h))
    (hconn : w.connect = .operationalError msg) :
    (main w).exitCode = 1 ∧
    (main w).stderrLines =
      ["Connection Error: " ++ msg,
       "",
       "Troubleshooting tips:",
       "- Ensure SSH or SSM tunnel is active",
       "- Verify tunnel is forwarding to 127.0.0.1:5432",
       "- Check that auth token is valid and not expired"] ∧
    (main w).stderrLines.countP is_categorized = 1 := by
  have he : connect_result w.connect = .error (.operationalError msg) := by
    rw [hconn]
    rfl
  have hm := main_of_connect_error w p h _ hc he
  rw [hm]
  refine ⟨rfl, rfl, ?_⟩
  show (stderr_for (Exc.operationalError msg)).countP is_categorized = 1
  exact countP_stderr_for _

/-- Witness for C7: no listener at the tunnel address (connection
refused). -/
theorem claim_C7_witness :
    (main ⟨example_env, .operationalError "connection refused", .rows [example_row]⟩).exitCode = 1 ∧
    (main ⟨example_env, .operationalError "connection refused", .rows [example_row]⟩).stderrLines =
      ["Connection Error: " ++ "connection refused",
       "",
       "Troubleshooting tips:",
       "- Ensure SSH or SSM tunnel is active",
       "- Verify tunnel is forwarding to 127.0.0.1:5432",
       "- Check that auth token is valid and not expired"] ∧
    (main ⟨example_env, .operationalError "connection refused", .rows [example_row]⟩).stderrLines.countP
      is_categorized = 1 :=
  claim_C7 ⟨example_env, .operationalError "connection refused", .rows [example_row]⟩
    example_params "db.internal.example" "connection refused" (by decide) rfl

/-- **C9.** On the success path the stdout stream splits as
`pre ++ [Via tunnel line] ++ post` where `pre` and `post` are the same for
any two values of PGHOSTADDR: the tunnel address from the environment
appears only in that pre-connection progress line, and the info block (in
`post`) carries the Host line with the literal address 127.0.0.1
annotated with the hostname. -/
theorem claim_C9 (h a a2 p m : String) (info : ConnInfoRow) (rest : List ConnInfoRow)
    (hh : h ≠ "") (ha : a ≠ "") (ha2 : a2 ≠ "") (hp : p ≠ "") (hm : m ≠ "")
    (hvh : validate_hostname h = .ok h)
    (hvm : m ∈ valid_modes) :
    ∃ pre post : List String,
      (main ⟨⟨some h, some a, some p, some m⟩, .ok, .rows (info :: rest)⟩).stdoutLines
        = pre ++ ("Via tunnel: " ++ a ++ ":5432") :: post ∧
      (main ⟨⟨some h, some a2, some p, some m⟩, .ok, .rows (info :: rest)⟩).stdoutLines
        = pre ++ ("Via tunnel: " ++ a2 ++ ":5432") :: post ∧
      ("Host: 127.0.0.1 (via tunnel to " ++ h ++ ")") ∈ post := by
  have h1 := main_of_success ⟨⟨some h, some a, some p, some m⟩, .ok, .rows (info :: rest)⟩
    _ _ info rest (gcc_ok_of_valid h a p m hh ha hp hm hvh hvm) rfl rfl
  have h2 := main_of_success ⟨⟨some h, some a2, some p, some m⟩, .ok, .rows (info :: rest)⟩
    _ _ info rest (gcc_ok_of_valid h a2 p m hh ha2 hp hm hvh hvm) rfl rfl
  refine ⟨out0_lines ++ ["Connecting to DSQL cluster: " ++ h],
          ["", "Establishing connection...", "Connection established successfully!",
           "Executing connection info query..."] ++ info_block_lines info h ++ closing_lines,
          ?_, ?_, ?_⟩
  · rw [h1]
    simp [out2_lines, out1_lines]
  · rw [h2]
    simp [out2_lines, out1_lines]
  · simp [info_block_lines]

/-- Witness for C9 with two different tunnel addresses. -/
theorem claim_C9_witness :
    ∃ pre post : List String,
      (main ⟨⟨some "db.internal.example", some "127.0.0.1", some "token123", some "require"⟩,
             .ok, .rows [example_row]⟩).stdoutLines
        = pre ++ ("Via tunnel: " ++ "127.0.0.1" ++ ":5432") :: post ∧
      (main ⟨⟨some "db.internal.example", some "10.0.0.7", some "token123", some "require"⟩,
             .ok, .rows [example_row]⟩).stdoutLines
        = pre ++ ("Via tunnel: " ++ "10.0.0.7" ++ ":5432") :: post ∧
      ("Host: 127.0.0.1 (via tunnel to " ++ "db.internal.example" ++ ")") ∈ post :=
  claim_C9 "db.internal.example" "127.0.0.1" "10.0.0.7" "token123" "require" example_row []
    (by decide) (by decide) (by decide) (by decide) (by decide) (by decide) (by decide)

/-- The conjunction asserted by C8, evaluated on any failure path: the run
ends in a `stderr_for` message and exit code 1, the success marker line is
absent from stdout, and exactly one stderr line is categorized. -/
lemma c8_parts_of_failure (w : World) (out : List String) (e : Exc)
    (hm : main w = ⟨out, stderr_for e, 1⟩)
    (hnsp : ¬ successPath w)
    (hout : "SSL Status: SSL connection (required by DSQL)" ∉ out) :
    ((main w).exitCode = 0 ↔ successPath w) ∧
    ((main w).exitCode = 0 ∨ (main w).exitCode = 1) ∧
    ((main w).exitCode = 0 →
       (main w).stderrLines = [] ∧
       ∃ info hst, info_block_lines info hst <:+: (main w).stdoutLines) ∧
    ((main w).exitCode = 1 →
       (main w).stderrLines.countP is_categorized = 1 ∧
       "SSL Status: SSL connection (required by DSQL)" ∉ (main w).stdoutLines) ∧
    (∀ info hst, "SSL Status: SSL connection (required by DSQL)" ∈ info_block_lines info hst) := by
  rw [hm]
  refine ⟨iff_of_false (by simp) hnsp, Or.inr rfl,
          fun h0 => by simp at h0,
          fun _ => ⟨countP_stderr_for e, hout⟩,
          marker_mem_info_block⟩

/-- **C8.** The run is all-or-nothing: exit code 0 exactly on the full
success path (valid configuration, connection opened, one row fetched),
in which case stderr is empty and the full info block appears on stdout;
on every failure path the exit code is 1, exactly one categorized error
line is printed to stderr, and the info block (marked by its fixed SSL
status line, present in every info block) is never printed. -/
theorem claim_C8 (w : World) :
    ((main w).exitCode = 0 ↔ successPath w) ∧
    ((main w).exitCode = 0 ∨ (main w).exitCode = 1) ∧
    ((main w).exitCode = 0 →
       (main w).stderrLines = [] ∧
       ∃ info hst, info_block_lines info hst <:+: (main w).stdoutLines) ∧
    ((main w).exitCode = 1 →
       (main w).stderrLines.countP is_categorized = 1 ∧
       "SSL Status: SSL connection (required by DSQL)" ∉ (main w).stdoutLines) ∧
    (∀ info hst, "SSL Status: SSL connection (required by DSQL)" ∈ info_block_lines info hst) := by
  rcases hgcc : get_connection_config w.env with e | ⟨p, h⟩
  · exact c8_parts_of_failure w out0_lines e (main_of_config_error w e hgcc)
      (not_successPath_of_gcc_error w e hgcc) marker_not_mem_out0
  · cases hconn : w.connect with
    | ok =>
      cases hq : w.query with
      | rows rs =>
        cases rs with
        | nil =>
          exact c8_parts_of_failure w _ _ (main_of_zero_rows w p h hgcc hconn hq)
            (not_successPath_of_rows_nil w hq) (marker_not_mem_out2_header p.hostaddr h)
        | cons r rs2 =>
          have hm := main_of_success w p h r rs2 hgcc hconn hq
          have hsp : successPath w := ⟨⟨p, h, hgcc⟩, hconn, r, rs2, hq⟩
          rw [hm]
          exact ⟨iff_of_true rfl hsp, Or.inl rfl,
                 fun _ => ⟨rfl, r, h, out2_lines p.hostaddr h, closing_lines, rfl⟩,
                 fun h1 => by simp at h1,
                 marker_mem_info_block⟩
      | operationalError m =>
        exact c8_parts_of_failure w _ _
          (main_of_query_error w p h _ hgcc hconn (by rw [hq]; rfl))
          (not_successPath_of_query_exc w (by rw [hq]; intro rs hh; cases hh))
          (marker_not_mem_out2 p.hostaddr h)
      | databaseError m =>
        exact c8_parts_of_failure w _ _
          (main_of_query_error w p h _ hgcc hconn (by rw [hq]; rfl))
          (not_successPath_of_query_exc w (by rw [hq]; intro rs hh; cases hh))
          (marker_not_mem_out2 p.hostaddr h)
      | otherError m =>
        exact c8_parts_of_failure w _ _
          (main_of_query_error w p h _ hgcc hconn (by rw [hq]; rfl))
          (not_successPath_of_query_exc w (by rw [hq]; intro rs hh; cases hh))
          (marker_not_mem_out2 p.hostaddr h)
    | operationalError m =>
      exact c8_parts_of_failure w _ _
        (main_of_connect_error w p h _ hgcc (by rw [hconn]; rfl))
        (not_successPath_of_connect_ne w (by rw [hconn]; simp))
        (marker_not_mem_out1 p.hostaddr h)
    | databaseError m =>
      exact c8_parts_of_failure w _ _
        (main_of_connect_error w p h _ hgcc (by rw [hconn]; rfl))
        (not_successPath_of_connect_ne w (by rw [hconn]; simp))
        (marker_not_mem_out1 p.hostaddr h)
    | otherError m =>
      exact c8_parts_of_failure w _ _
        (main_of_connect_error w p h _ hgcc (by rw [hconn]; rfl))
        (not_successPath_of_connect_ne w (by rw [hconn]; simp))
        (marker_not_mem_out1 p.hostaddr h)

/-- Witness for C8: the success world exits 0; the zero-row world exits 1
with one categorized stderr line and no info-block marker on stdout. -/
theorem claim_C8_witness :
    (main ⟨example_env, .ok, .rows [example_row]⟩).exitCode = 0 ∧
    ((main ⟨example_env, .ok, .rows []⟩).stderrLines.countP is_categorized = 1 ∧
     "SSL Status: SSL connection (required by DSQL)" ∉
       (main ⟨example_env, .ok, .rows []⟩).stdoutLines) :=
  ⟨(claim_C8 ⟨example_env, .ok, .rows [example_row]⟩).1.mpr
     ⟨⟨example_params, "db.internal.example", by decide⟩, rfl, example_row, [], rfl⟩,
   (claim_C8 ⟨example_env, .ok, .rows []⟩).2.2.2.1 (by decide)⟩

end DsqlMain
